import Mathlib

set_option maxRecDepth 16000

/-!
Verification of the QRFormv4 authentication / storage core.

The definitions below are a shallow embedding of the server code:
the credential hasher (`hashPassword`, `comparePasswords` in the auth
module), the passport local-strategy verify callback and the
login/register route handlers, the `requireAuth` / `requireAdmin`
middleware, and the `DatabaseStorage` CRUD operations.  Node buffers are
modelled as lists of byte values (`List Nat`, each `< 256`), JavaScript
strings as `List Char` where character-level behaviour matters (hex
encoding, the `"."` credential delimiter) and as `String` elsewhere.
The scrypt key-derivation function is opaque cryptography; it is
modelled as an arbitrary function parameter producing a 64-byte buffer
(`GoodKdf`), exactly how the code uses `scryptAsync(pw, salt, 64)`.
Randomness (`randomBytes(16)`) is modelled by passing the drawn salt
bytes explicitly.
-/

namespace QRForm

/-! ## Hex encoding / decoding (Node `Buffer` hex semantics) -/

/-- One hex digit, lowercase, as produced by `buf.toString("hex")`. -/
def hexDigitToChar (n : Nat) : Char :=
  if n < 10 then Char.ofNat (48 + n) else Char.ofNat (87 + n)

/-- Value of one hex digit character, accepting both cases, as consumed
by `Buffer.from(s, "hex")`. -/
def hexCharToVal (c : Char) : Option Nat :=
  if 48 ≤ c.toNat ∧ c.toNat ≤ 57 then some (c.toNat - 48)
  else if 97 ≤ c.toNat ∧ c.toNat ≤ 102 then some (c.toNat - 87)
  else if 65 ≤ c.toNat ∧ c.toNat ≤ 70 then some (c.toNat - 55)
  else none

/-- Encoding `buf.toString("hex")`: two lowercase digits per byte. -/
def hexEncode : List Nat → List Char
  | [] => []
  | b :: rest => hexDigitToChar (b / 16) :: hexDigitToChar (b % 16) :: hexEncode rest

/-- Decoding `Buffer.from(s, "hex")`: decodes pairs of hex digits and stops at the
first invalid pair or unpaired trailing character (Node truncates, it
does not throw). -/
def hexDecode : List Char → List Nat
  | c1 :: c2 :: rest =>
    match hexCharToVal c1, hexCharToVal c2 with
    | some h, some l => (16 * h + l) :: hexDecode rest
    | _, _ => []
  | _ => []

theorem hexCharToVal_hexDigitToChar (n : Nat) (h : n < 16) :
    hexCharToVal (hexDigitToChar n) = some n := by
  interval_cases n <;> decide

theorem hexDigitToChar_ne_dot (n : Nat) (h : n < 16) :
    hexDigitToChar n ≠ Char.ofNat 46 := by
  interval_cases n <;> decide

theorem hexDecode_hexEncode (bs : List Nat) (h : ∀ b ∈ bs, b < 256) :
    hexDecode (hexEncode bs) = bs := by
  induction bs with
  | nil => rfl
  | cons b rest ih =>
    have hb : b < 256 := h b (List.mem_cons_self b rest)
    have hdiv : b / 16 < 16 := by omega
    have hmod : b % 16 < 16 := Nat.mod_lt _ (by norm_num)
    have hrest : ∀ x ∈ rest, x < 256 := fun x hx => h x (List.mem_cons_of_mem _ hx)
    simp [hexEncode, hexDecode, hexCharToVal_hexDigitToChar _ hdiv,
      hexCharToVal_hexDigitToChar _ hmod, ih hrest]
    omega

theorem dot_not_mem_hexEncode (bs : List Nat) (h : ∀ b ∈ bs, b < 256) :
    ('.' : Char) ∉ hexEncode bs := by
  induction bs with
  | nil => simp [hexEncode]
  | cons b rest ih =>
    have hb : b < 256 := h b (List.mem_cons_self b rest)
    have hdiv : b / 16 < 16 := by omega
    have hmod : b % 16 < 16 := Nat.mod_lt _ (by norm_num)
    have hrest : ∀ x ∈ rest, x < 256 := fun x hx => h x (List.mem_cons_of_mem _ hx)
    intro hmem
    simp [hexEncode, List.mem_cons] at hmem
    rcases hmem with h1 | h2 | h3
    · exact hexDigitToChar_ne_dot _ hdiv (by simpa using h1.symm)
    · exact hexDigitToChar_ne_dot _ hmod (by simpa using h2.symm)
    · exact ih hrest h3

/-! ## JavaScript `String.prototype.split(".")` on character lists -/

/-- Split `stored.split(".")`: all parts, in order; always at least one part. -/
def splitOnDot : List Char → List (List Char)
  | [] => [[]]
  | c :: rest =>
    if c = '.' then [] :: splitOnDot rest
    else
      match splitOnDot rest with
      | part :: parts => (c :: part) :: parts
      | [] => [[c]]

theorem splitOnDot_no_dot (l : List Char) (h : ('.' : Char) ∉ l) :
    splitOnDot l = [l] := by
  induction l with
  | nil => rfl
  | cons c rest ih =>
    have hc : ¬ c = '.' := fun he => h (he ▸ List.mem_cons_self c rest)
    have hr : ('.' : Char) ∉ rest := fun hm => h (List.mem_cons_of_mem c hm)
    simp [splitOnDot, hc, ih hr]

theorem splitOnDot_append (a b : List Char) (ha : ('.' : Char) ∉ a) :
    splitOnDot (a ++ '.' :: b) = a :: splitOnDot b := by
  induction a with
  | nil => simp [splitOnDot]
  | cons c cs ih =>
    have hc : ¬ c = '.' := fun he => ha (he ▸ List.mem_cons_self c cs)
    have hcs : ('.' : Char) ∉ cs := fun hm => ha (List.mem_cons_of_mem c hm)
    simp [splitOnDot, hc, ih hcs]

/-! ## Credential hasher -/

/-- What the code assumes of `scryptAsync(·, ·, 64)`: a deterministic
64-byte derived key.  The password and the (hex-string) salt are the two
inputs. -/
def GoodKdf (kdf : List Char → List Char → List Nat) : Prop :=
  ∀ p s, (kdf p s).length = 64 ∧ ∀ b ∈ kdf p s, b < 256

/-- Model of `hashPassword`: `salt = randomBytes(16).toString("hex")`;
`buf = scrypt(password, salt, 64)`; result
`buf.toString("hex") + "." + salt`.  The randomly drawn salt bytes are
an explicit argument. -/
def hashPassword (kdf : List Char → List Char → List Nat)
    (saltBytes : List Nat) (password : List Char) : List Char :=
  hexEncode (kdf password (hexEncode saltBytes)) ++ '.' :: hexEncode saltBytes

/-- Run-time failures `comparePasswords` can raise: `scrypt` with an
`undefined` salt (credential had no `"."`, so destructuring left `salt`
undefined) throws a `TypeError`; `timingSafeEqual` on buffers of
different byte lengths throws `ERR_CRYPTO_TIMING_SAFE_EQUAL_LENGTH`. -/
inductive CompareError where
  | typeError
  | lengthMismatch
  deriving DecidableEq, Repr

/-- Model of `comparePasswords(supplied, stored)`:
`const [hashed, salt] = stored.split(".")` (first two parts),
`hashedBuf = Buffer.from(hashed, "hex")`,
`suppliedBuf = scrypt(supplied, salt, 64)`,
`timingSafeEqual(hashedBuf, suppliedBuf)`. -/
def comparePasswords (kdf : List Char → List Char → List Nat)
    (supplied stored : List Char) : Except CompareError Bool :=
  match splitOnDot stored with
  | hashed :: salt :: _ =>
    let hashedBuf := hexDecode hashed
    let suppliedBuf := kdf supplied salt
    if hashedBuf.length = suppliedBuf.length then
      Except.ok (hashedBuf == suppliedBuf)
    else
      Except.error CompareError.lengthMismatch
  | _ => Except.error CompareError.typeError

/-- A concrete key-derivation function used to evaluate the model on
closed inputs. -/
def kdf0 : List Char → List Char → List Nat :=
  fun _ _ => List.replicate 64 0

theorem goodKdf0 : GoodKdf kdf0 := by
  intro p s
  constructor
  · simp [kdf0]
  · intro b hb
    simp [kdf0] at hb
    omega

theorem comparePasswords_hashPassword
    (kdf : List Char → List Char → List Nat) (hk : GoodKdf kdf)
    (pw : List Char) (s : List Nat) (hs : ∀ b ∈ s, b < 256) :
    comparePasswords kdf pw (hashPassword kdf s pw) = Except.ok true := by
  have hkey := hk pw (hexEncode s)
  have hnodotkey : ('.' : Char) ∉ hexEncode (kdf pw (hexEncode s)) :=
    dot_not_mem_hexEncode _ hkey.2
  have hnodotsalt : ('.' : Char) ∉ hexEncode s := dot_not_mem_hexEncode _ hs
  unfold comparePasswords hashPassword
  rw [splitOnDot_append _ _ hnodotkey, splitOnDot_no_dot _ hnodotsalt]
  simp [hexDecode_hexEncode _ hkey.2]

theorem hashPassword_inj_salt
    (kdf : List Char → List Char → List Nat) (hk : GoodKdf kdf)
    (pw : List Char) (s1 s2 : List Nat)
    (h1 : ∀ b ∈ s1, b < 256) (h2 : ∀ b ∈ s2, b < 256) (hne : s1 ≠ s2) :
    hashPassword kdf s1 pw ≠ hashPassword kdf s2 pw := by
  intro heq
  have hc := congrArg splitOnDot heq
  unfold hashPassword at hc
  rw [splitOnDot_append _ _ (dot_not_mem_hexEncode _ (hk pw (hexEncode s1)).2),
    splitOnDot_append _ _ (dot_not_mem_hexEncode _ (hk pw (hexEncode s2)).2),
    splitOnDot_no_dot _ (dot_not_mem_hexEncode _ h1),
    splitOnDot_no_dot _ (dot_not_mem_hexEncode _ h2)] at hc
  simp only [List.cons.injEq] at hc
  have hsalts : hexEncode s1 = hexEncode s2 := hc.2.1
  have := congrArg hexDecode hsalts
  rw [hexDecode_hexEncode _ h1, hexDecode_hexEncode _ h2] at this
  exact hne this

/-- C5: `verify(P, hash(P))` is true, and hashing the same password with
two distinct random salts yields two distinct credential strings, both of
which verify against the original password. -/
theorem hash_verify_roundtrip_distinct_salts
    (kdf : List Char → List Char → List Nat) (hk : GoodKdf kdf)
    (pw : List Char) (s1 s2 : List Nat)
    (h1 : ∀ b ∈ s1, b < 256) (h2 : ∀ b ∈ s2, b < 256) (hne : s1 ≠ s2) :
    comparePasswords kdf pw (hashPassword kdf s1 pw) = Except.ok true ∧
    comparePasswords kdf pw (hashPassword kdf s2 pw) = Except.ok true ∧
    hashPassword kdf s1 pw ≠ hashPassword kdf s2 pw :=
  ⟨comparePasswords_hashPassword kdf hk pw s1 h1,
   comparePasswords_hashPassword kdf hk pw s2 h2,
   hashPassword_inj_salt kdf hk pw s1 s2 h1 h2 hne⟩

/-- A concrete password and two concrete 16-byte salts. -/
def pwW : List Char := "secret1".toList

def saltW1 : List Nat := List.replicate 16 1

def saltW2 : List Nat := List.replicate 16 2

/-- Witness for C5 at concrete inputs. -/
theorem hash_verify_roundtrip_distinct_salts_witness :
    comparePasswords kdf0 pwW (hashPassword kdf0 saltW1 pwW) = Except.ok true ∧
    comparePasswords kdf0 pwW (hashPassword kdf0 saltW2 pwW) = Except.ok true ∧
    hashPassword kdf0 saltW1 pwW ≠ hashPassword kdf0 saltW2 pwW :=
  hash_verify_roundtrip_distinct_salts kdf0 goodKdf0 pwW saltW1 saltW2
    (by decide) (by decide) (by decide)

deriving instance DecidableEq for Except

/-- C7 counterexample: on a malformed credential the code does not return
false — a credential with no `"."` delimiter raises (scrypt receives an
undefined salt), and a short / non-hex key part raises the
`timingSafeEqual` length error; neither is a `MalformedCredential`
result. -/
theorem verify_malformed_throws_cx :
    comparePasswords kdf0 ("x".toList) ("abc".toList) =
      Except.error CompareError.typeError ∧
    comparePasswords kdf0 ("x".toList) ("abc.zz".toList) =
      Except.error CompareError.lengthMismatch ∧
    ∀ b : Bool, comparePasswords kdf0 ("x".toList) ("abc".toList) ≠ Except.ok b := by
  decide

/-- C7 amended: for a well-formed credential (64-byte hex key, `"."`,
salt with no further `"."`), a mismatched secret is a normal `false`
result and never an exception; but a credential with no `"."` delimiter
raises a TypeError-style failure (never `false`, and there is no
distinguished `MalformedCredential` error in the code). -/
theorem verify_error_behavior_amended
    (kdf : List Char → List Char → List Nat) (hk : GoodKdf kdf)
    (supplied stored : List Char) :
    (('.' : Char) ∉ stored →
      comparePasswords kdf supplied stored = Except.error CompareError.typeError) ∧
    (∀ key salt, stored = hexEncode key ++ '.' :: salt → ('.' : Char) ∉ salt →
      key.length = 64 → (∀ b ∈ key, b < 256) →
      comparePasswords kdf supplied stored = Except.ok (key == kdf supplied salt)) := by
  constructor
  · intro hnd
    unfold comparePasswords
    rw [splitOnDot_no_dot _ hnd]
  · intro key salt hst hnds hlen hbytes
    subst hst
    unfold comparePasswords
    rw [splitOnDot_append _ _ (dot_not_mem_hexEncode _ hbytes),
      splitOnDot_no_dot _ hnds]
    simp [hexDecode_hexEncode _ hbytes, hlen, (hk supplied salt).1]

/-- A concrete well-formed credential whose key part does not match what
the key-derivation function yields. -/
def keyW : List Nat := List.replicate 64 1

def saltCharsW : List Char := "salty".toList

def storedW : List Char := hexEncode keyW ++ '.' :: saltCharsW

/-- Witness for the amended C7 at concrete inputs. -/
theorem verify_error_behavior_amended_witness :
    comparePasswords kdf0 ("x".toList) ("abc".toList) =
      Except.error CompareError.typeError ∧
    comparePasswords kdf0 ("x".toList) storedW =
      Except.ok (keyW == kdf0 ("x".toList) saltCharsW) :=
  ⟨(verify_error_behavior_amended kdf0 goodKdf0 ("x".toList) ("abc".toList)).1
      (by decide),
   (verify_error_behavior_amended kdf0 goodKdf0 ("x".toList) storedW).2
      keyW saltCharsW rfl (by decide) (by decide) (by decide)⟩

/-! ## Data model -/

structure User where
  id : String
  username : String
  email : String
  password : List Char
  role : String
  banned : Bool
  createdAt : Nat
  updatedAt : Nat
  deriving DecidableEq, Repr

/-- JSON scalar values appearing in serialized user responses. -/
inductive JVal where
  | s (v : String)
  | b (v : Bool)
  | n (v : Nat)
  deriving DecidableEq, Repr

/-- The user view the auth routes serialize:
`{id, username, email, role, banned, createdAt}` — the field list
written out in the register, login, `GET /api/user` and
`GET /api/users` handlers. -/
def sanitizeUser (u : User) : List (String × JVal) :=
  [("id", JVal.s u.id), ("username", JVal.s u.username),
   ("email", JVal.s u.email), ("role", JVal.s u.role),
   ("banned", JVal.b u.banned), ("createdAt", JVal.n u.createdAt)]

/-! ## Storage: users table -/

def getUser (store : List User) (id : String) : Option User :=
  store.find? (fun u => u.id == id)

def getUserByUsername (store : List User) (username : String) : Option User :=
  store.find? (fun u => u.username == username)

def getUserByEmail (store : List User) (email : String) : Option User :=
  store.find? (fun u => u.email == email)

/-- Type `InsertUser`: the insert schema omits id and timestamps; `role` and
`banned` have column defaults (`"user"` / `false`) applied when the
insert does not supply them. -/
structure InsertUser where
  username : String
  email : String
  password : List Char
  role : Option String
  banned : Option Bool
  deriving DecidableEq, Repr

/-- Model of `createUser`: inserts a row; the database fills the generated id,
the `role` / `banned` column defaults and the timestamps. -/
def createUser (store : List User) (ins : InsertUser) (newId : String)
    (now : Nat) : User × List User :=
  let u : User :=
    { id := newId, username := ins.username, email := ins.email,
      password := ins.password, role := ins.role.getD "user",
      banned := ins.banned.getD false, createdAt := now, updatedAt := now }
  (u, store ++ [u])

/-! ## Registration -/

/-- A registration request body; the client is free to also send `role`
and `banned` fields. -/
structure RegisterBody where
  username : String
  email : String
  password : List Char
  role : Option String
  banned : Option Bool
  deriving DecidableEq, Repr

structure RegistrationData where
  username : String
  email : String
  password : List Char
  deriving DecidableEq, Repr

/-- Model of `registrationSchema.parse`: `role` and `banned` are omitted from the
schema (zod strips unknown keys) and the password must be at least 6
characters. -/
def registrationSchemaParse (body : RegisterBody) : Option RegistrationData :=
  if body.password.length < 6 then none
  else some { username := body.username, email := body.email,
              password := body.password }

inductive RegisterOutcome where
  | validationError (message : String)
  | duplicateUsername
  | duplicateEmail
  | created (u : User)
  deriving DecidableEq, Repr

/-- Handler for `POST /api/register`: parse, uniqueness checks on username then
email, hash the password, then `createUser` with `role: "user"` and
`banned: false` forced. The fresh salt, generated id and clock are
explicit arguments. -/
def registerHandler (kdf : List Char → List Char → List Nat)
    (body : RegisterBody) (store : List User) (saltBytes : List Nat)
    (newId : String) (now : Nat) : RegisterOutcome × List User :=
  match registrationSchemaParse body with
  | none => (RegisterOutcome.validationError "Invalid user data", store)
  | some userData =>
    match getUserByUsername store userData.username with
    | some _ => (RegisterOutcome.duplicateUsername, store)
    | none =>
      match getUserByEmail store userData.email with
      | some _ => (RegisterOutcome.duplicateEmail, store)
      | none =>
        let created := createUser store
          { username := userData.username, email := userData.email,
            password := hashPassword kdf saltBytes userData.password,
            role := some "user", banned := some false } newId now
        (RegisterOutcome.created created.fst, created.snd)

/-- The HTTP response for each register outcome: 201 plus the sanitized
user on success. -/
def registerResponse : RegisterOutcome → Nat × Option (List (String × JVal))
  | RegisterOutcome.validationError _ => (400, none)
  | RegisterOutcome.duplicateUsername => (400, none)
  | RegisterOutcome.duplicateEmail => (400, none)
  | RegisterOutcome.created u => (201, some (sanitizeUser u))

/-- C1: whatever `role` / `banned` values the client supplies, the
register operation behaves identically, and any user record it creates
has `role = "user"` and `banned = false`. -/
theorem register_forces_role_and_banned
    (kdf : List Char → List Char → List Nat) (body : RegisterBody)
    (store : List User) (saltBytes : List Nat) (newId : String) (now : Nat)
    (r : Option String) (b : Option Bool) :
    registerHandler kdf { body with role := r, banned := b } store saltBytes newId now =
      registerHandler kdf body store saltBytes newId now ∧
    (∀ u store2,
      registerHandler kdf body store saltBytes newId now =
        (RegisterOutcome.created u, store2) →
      u.role = "user" ∧ u.banned = false ∧ store2 = store ++ [u]) := by
  constructor
  · unfold registerHandler
    have hparse : registrationSchemaParse { body with role := r, banned := b } =
        registrationSchemaParse body := by
      simp [registrationSchemaParse]
    rw [hparse]
  · intro u store2 h
    unfold registerHandler at h
    split at h
    · exact absurd h (by simp)
    · split at h
      · exact absurd h (by simp)
      · split at h
        · exact absurd h (by simp)
        · simp only [createUser, Prod.mk.injEq, RegisterOutcome.created.injEq] at h
          obtain ⟨hu2, hs2⟩ := h
          subst hu2
          subst hs2
          exact ⟨rfl, rfl, rfl⟩

/-- Concrete register request attempting privilege escalation. -/
def bodyA : RegisterBody :=
  { username := "alice", email := "alice@x.com", password := "secret1".toList,
    role := some "admin", banned := some false }

/-- The record registration actually creates for `bodyA`. -/
def userA : User :=
  { id := "u1", username := "alice", email := "alice@x.com",
    password := hashPassword kdf0 saltW1 ("secret1".toList),
    role := "user", banned := false, createdAt := 3, updatedAt := 3 }

/-- Witness for C1 at a concrete escalation attempt. -/
theorem register_forces_role_and_banned_witness :
    userA.role = "user" ∧ userA.banned = false ∧ [userA] = [] ++ [userA] :=
  (register_forces_role_and_banned kdf0 bodyA [] saltW1 "u1" 3
      (some "admin") (some false)).2 userA [userA] rfl

/-! ## Login -/

inductive VerifyOutcome where
  | failureInvalid (message : String)
  | success (u : User)
  | serverError
  deriving DecidableEq, Repr

/-- The passport `LocalStrategy` verify callback: username lookup, then
the ban check, then the password comparison; every failure path passes
the same `"Invalid credentials"` message, and a thrown comparison error
becomes `done(error)`. -/
def localStrategyVerify (kdf : List Char → List Char → List Nat)
    (store : List User) (username : String) (password : List Char) :
    VerifyOutcome :=
  match getUserByUsername store username with
  | none => VerifyOutcome.failureInvalid "Invalid credentials"
  | some u =>
    if u.banned then VerifyOutcome.failureInvalid "Invalid credentials"
    else
      match comparePasswords kdf password u.password with
      | Except.error _ => VerifyOutcome.serverError
      | Except.ok true => VerifyOutcome.success u
      | Except.ok false => VerifyOutcome.failureInvalid "Invalid credentials"

inductive LoginResponse where
  | unauthorized (status : Nat) (message : String)
  | ok (status : Nat) (body : List (String × JVal))
  | serverFailure
  deriving DecidableEq, Repr

/-- Handler for `POST /api/login`: every strategy failure becomes the one hardcoded
`401 {"message": "Invalid credentials"}` response; success serializes
the sanitized user. -/
def loginHandler (kdf : List Char → List Char → List Nat)
    (store : List User) (username : String) (password : List Char) :
    LoginResponse :=
  match localStrategyVerify kdf store username password with
  | VerifyOutcome.serverError => LoginResponse.serverFailure
  | VerifyOutcome.failureInvalid _ =>
    LoginResponse.unauthorized 401 "Invalid credentials"
  | VerifyOutcome.success u => LoginResponse.ok 200 (sanitizeUser u)

/-- C2: a nonexistent username, a banned account (even with the correct
password), and a wrong password for an existing account all yield the
identical `401 "Invalid credentials"` response. -/
theorem login_failure_uniform (kdf : List Char → List Char → List Nat)
    (store : List User) (username : String) (password : List Char) :
    (getUserByUsername store username = none →
      loginHandler kdf store username password =
        LoginResponse.unauthorized 401 "Invalid credentials") ∧
    (∀ u, getUserByUsername store username = some u → u.banned = true →
      loginHandler kdf store username password =
        LoginResponse.unauthorized 401 "Invalid credentials") ∧
    (∀ u, getUserByUsername store username = some u → u.banned = false →
      comparePasswords kdf password u.password = Except.ok false →
      loginHandler kdf store username password =
        LoginResponse.unauthorized 401 "Invalid credentials") := by
  refine ⟨fun h => ?_, fun u h hb => ?_, fun u h hb hcp => ?_⟩
  · unfold loginHandler localStrategyVerify
    rw [h]
  · unfold loginHandler localStrategyVerify
    rw [h]
    simp [hb]
  · unfold loginHandler localStrategyVerify
    rw [h]
    simp [hb, hcp]

/-- A key-derivation function that depends on the password, to exhibit a
wrong-password mismatch on concrete inputs. -/
def kdf1 : List Char → List Char → List Nat :=
  fun p _ => List.replicate 63 0 ++ [p.length % 256]

theorem goodKdf1 : GoodKdf kdf1 := by
  intro p s
  constructor
  · simp [kdf1]
  · intro b hb
    simp [kdf1] at hb
    rcases hb with hb | hb
    · omega
    · subst hb
      exact Nat.mod_lt _ (by norm_num)

def bannedUserW : User :=
  { id := "u2", username := "bob", email := "bob@x.com",
    password := hashPassword kdf0 saltW1 pwW, role := "user",
    banned := true, createdAt := 0, updatedAt := 0 }

def aliceW : User :=
  { id := "u3", username := "alice", email := "alice@x.com",
    password := hashPassword kdf1 saltW1 pwW, role := "user",
    banned := false, createdAt := 0, updatedAt := 0 }

/-- Witness for C2: the three failure scenarios on concrete stores. -/
theorem login_failure_uniform_witness :
    loginHandler kdf0 [] "ghost" pwW =
      LoginResponse.unauthorized 401 "Invalid credentials" ∧
    loginHandler kdf0 [bannedUserW] "bob" pwW =
      LoginResponse.unauthorized 401 "Invalid credentials" ∧
    loginHandler kdf1 [aliceW] "alice" ("bad".toList) =
      LoginResponse.unauthorized 401 "Invalid credentials" :=
  ⟨(login_failure_uniform kdf0 [] "ghost" pwW).1 (by decide),
   (login_failure_uniform kdf0 [bannedUserW] "bob" pwW).2.1 bannedUserW
      (by decide) rfl,
   (login_failure_uniform kdf1 [aliceW] "alice" ("bad".toList)).2.2 aliceW
      (by decide) rfl (by decide)⟩

/-! ## Authorization middleware -/

/-- The authenticated-user binding a request carries: `req.user` as
deserialized from the session store; `none` when `req.isAuthenticated()`
is false. -/
structure AuthedRequest where
  user : Option User
  deriving DecidableEq, Repr

inductive GateOutcome where
  | unauthorized (status : Nat) (message : String)
  | forbidden (status : Nat) (message : String)
  | proceed (u : User)
  deriving DecidableEq, Repr

/-- Model of `requireAuth`: 401 without a session user; a banned session user is
logged out (the session's user binding is cleared) and receives 403;
otherwise the request proceeds to the downstream handler.  The second
component is the session binding after the middleware ran. -/
def requireAuth (req : AuthedRequest) : GateOutcome × AuthedRequest :=
  match req.user with
  | none => (GateOutcome.unauthorized 401 "Authentication required", req)
  | some u =>
    if u.banned then
      (GateOutcome.forbidden 403 "Access denied", { user := none })
    else (GateOutcome.proceed u, req)

/-- Model of `requireAdmin`: the same checks as `requireAuth` (ban check first),
then 403 unless the bound user's role is `admin`. -/
def requireAdmin (req : AuthedRequest) : GateOutcome × AuthedRequest :=
  match req.user with
  | none => (GateOutcome.unauthorized 401 "Authentication required", req)
  | some u =>
    if u.banned then
      (GateOutcome.forbidden 403 "Access denied", { user := none })
    else if u.role == "admin" then (GateOutcome.proceed u, req)
    else (GateOutcome.forbidden 403 "Admin access required", req)

/-- C3: a valid session bound to a banned user gets 403 from both gates,
the session binding is destroyed as a side effect (never reaching the
downstream handler), and a follow-up request on the now-unbound session
gets 401. -/
theorem gated_request_banned_forbidden (u : User) (hb : u.banned = true) :
    requireAuth { user := some u } =
      (GateOutcome.forbidden 403 "Access denied", { user := none }) ∧
    requireAdmin { user := some u } =
      (GateOutcome.forbidden 403 "Access denied", { user := none }) ∧
    requireAuth { user := none } =
      (GateOutcome.unauthorized 401 "Authentication required", { user := none }) ∧
    requireAdmin { user := none } =
      (GateOutcome.unauthorized 401 "Authentication required", { user := none }) := by
  refine ⟨?_, ?_, rfl, rfl⟩
  · simp [requireAuth, hb]
  · simp [requireAdmin, hb]

/-- Witness for C3 with a concrete banned user. -/
theorem gated_request_banned_forbidden_witness :
    requireAuth { user := some bannedUserW } =
      (GateOutcome.forbidden 403 "Access denied", { user := none }) ∧
    requireAdmin { user := some bannedUserW } =
      (GateOutcome.forbidden 403 "Access denied", { user := none }) ∧
    requireAuth { user := none } =
      (GateOutcome.unauthorized 401 "Authentication required", { user := none }) ∧
    requireAdmin { user := none } =
      (GateOutcome.unauthorized 401 "Authentication required", { user := none }) :=
  gated_request_banned_forbidden bannedUserW rfl

/-! ## Storage: user mutations and admin endpoints -/

/-- Model of `banUser`: `UPDATE users SET banned = true, updated_at = now WHERE
id = ?`; the boolean reports whether a row was affected. -/
def banUser (store : List User) (id : String) (now : Nat) : Bool × List User :=
  (store.any (fun u => u.id == id),
   store.map (fun u =>
     if u.id == id then { u with banned := true, updatedAt := now } else u))

/-- Model of `unbanUser`: same update with `banned = false`. -/
def unbanUser (store : List User) (id : String) (now : Nat) : Bool × List User :=
  (store.any (fun u => u.id == id),
   store.map (fun u =>
     if u.id == id then { u with banned := false, updatedAt := now } else u))

/-- Model of `deleteUser`: `DELETE FROM users WHERE id = ?`; the boolean reports
whether a row was removed. -/
def deleteUser (store : List User) (id : String) : Bool × List User :=
  (store.any (fun u => u.id == id), store.filter (fun u => !(u.id == id)))

structure MsgResponse where
  status : Nat
  message : String
  deriving DecidableEq, Repr

/-- Handler for `PATCH /api/users/:id/ban` (behind `requireAdmin`): self-ban guard
first, then `banUser`.  The request body is never read. -/
def banHandler (actor : User) (targetId : String)
    (body : List (String × String)) (store : List User) (now : Nat) :
    MsgResponse × List User :=
  if actor.id == targetId then
    (MsgResponse.mk 400 "Cannot ban yourself", store)
  else
    match banUser store targetId now with
    | (true, store2) => (MsgResponse.mk 200 "User banned successfully", store2)
    | (false, store2) => (MsgResponse.mk 404 "User not found", store2)

/-- Handler for `PATCH /api/users/:id/unban` (behind `requireAdmin`): no self guard —
`unbanUser` runs directly. -/
def unbanHandler (actor : User) (targetId : String)
    (body : List (String × String)) (store : List User) (now : Nat) :
    MsgResponse × List User :=
  match unbanUser store targetId now with
  | (true, store2) => (MsgResponse.mk 200 "User unbanned successfully", store2)
  | (false, store2) => (MsgResponse.mk 404 "User not found", store2)

/-- Handler for `DELETE /api/users/:id` (behind `requireAdmin`): self-delete guard
first, then `deleteUser`; 204 with an empty body on success. -/
def deleteUserHandler (actor : User) (targetId : String)
    (body : List (String × String)) (store : List User) :
    MsgResponse × List User :=
  if actor.id == targetId then
    (MsgResponse.mk 400 "Cannot delete yourself", store)
  else
    match deleteUser store targetId with
    | (true, store2) => (MsgResponse.mk 204 "", store2)
    | (false, store2) => (MsgResponse.mk 404 "User not found", store2)

/-- A concrete admin actor and a store containing only that admin. -/
def adminW : User :=
  { id := "a1", username := "root", email := "root@x.com", password := [],
    role := "admin", banned := false, createdAt := 0, updatedAt := 0 }

def storeC4 : List User := [adminW]

/-- C4 counterexample: an admin calling unban on their own id does not
receive an InvalidOperation error — the handler has no self guard, so
the call succeeds with 200 and rewrites the record (refreshing
`updatedAt`). -/
theorem self_unban_not_invalid_operation_cx :
    unbanHandler adminW adminW.id [] storeC4 7 =
      (MsgResponse.mk 200 "User unbanned successfully",
        [{ adminW with banned := false, updatedAt := 7 }]) ∧
    (unbanHandler adminW adminW.id [] storeC4 7).fst.status ≠ 400 ∧
    (unbanHandler adminW adminW.id [] storeC4 7).snd ≠ storeC4 := by
  decide

/-- C4 amended: ban and delete on the actor's own id fail with the 400
InvalidOperation response and leave the store untouched, whatever the
request body; unban has no self guard and succeeds (200) whenever the
target row exists. -/
theorem admin_self_action_amended (actor : User)
    (body : List (String × String)) (store : List User) (now : Nat) :
    banHandler actor actor.id body store now =
      (MsgResponse.mk 400 "Cannot ban yourself", store) ∧
    deleteUserHandler actor actor.id body store =
      (MsgResponse.mk 400 "Cannot delete yourself", store) ∧
    (store.any (fun u => u.id == actor.id) = true →
      (unbanHandler actor actor.id body store now).fst =
        MsgResponse.mk 200 "User unbanned successfully") := by
  refine ⟨?_, ?_, fun h => ?_⟩
  · simp [banHandler]
  · simp [deleteUserHandler]
  · simp [unbanHandler, unbanUser, h]

/-- Witness for the amended C4 at concrete inputs. -/
theorem admin_self_action_amended_witness :
    banHandler adminW adminW.id [] storeC4 7 =
      (MsgResponse.mk 400 "Cannot ban yourself", storeC4) ∧
    deleteUserHandler adminW adminW.id [] storeC4 =
      (MsgResponse.mk 400 "Cannot delete yourself", storeC4) ∧
    (unbanHandler adminW adminW.id [] storeC4 7).fst =
      MsgResponse.mk 200 "User unbanned successfully" :=
  ⟨(admin_self_action_amended adminW [] storeC4 7).1,
   (admin_self_action_amended adminW [] storeC4 7).2.1,
   (admin_self_action_amended adminW [] storeC4 7).2.2 (by decide)⟩

/-! ## Entities: events, registrations, QR settings, form schemas -/

structure Event where
  id : String
  userId : String
  name : String
  description : Option String
  eventDate : Option String
  eventTime : Option String
  qrCodeUrl : Option String
  registrationUrl : Option String
  isActive : Bool
  createdAt : Nat
  updatedAt : Nat
  deriving DecidableEq, Repr

structure Registration where
  id : String
  eventId : String
  name : String
  phone : String
  position : Option String
  email : Option String
  customData : String
  registeredAt : Nat
  deriving DecidableEq, Repr

structure QrSettings where
  id : String
  eventId : String
  backgroundImage : Option String
  qrSize : Nat
  qrPosition : String
  textOverlays : String
  customFields : String
  createdAt : Nat
  updatedAt : Nat
  deriving DecidableEq, Repr

structure FormSchema where
  id : String
  eventId : String
  schema : String
  layout : String
  responsiveSettings : String
  createdAt : Nat
  updatedAt : Nat
  deriving DecidableEq, Repr

/-! ## Partial updates (`Partial<T>` arguments of the `update*` methods).
A `none` field was not supplied; nullable columns carry a nested option. -/

structure UserUpdate where
  id : Option String
  username : Option String
  email : Option String
  password : Option (List Char)
  role : Option String
  banned : Option Bool
  createdAt : Option Nat
  updatedAt : Option Nat
  deriving DecidableEq, Repr

structure EventUpdate where
  id : Option String
  userId : Option String
  name : Option String
  description : Option (Option String)
  eventDate : Option (Option String)
  eventTime : Option (Option String)
  qrCodeUrl : Option (Option String)
  registrationUrl : Option (Option String)
  isActive : Option Bool
  createdAt : Option Nat
  updatedAt : Option Nat
  deriving DecidableEq, Repr

structure RegistrationUpdate where
  id : Option String
  eventId : Option String
  name : Option String
  phone : Option String
  position : Option (Option String)
  email : Option (Option String)
  customData : Option String
  registeredAt : Option Nat
  deriving DecidableEq, Repr

structure QrSettingsUpdate where
  id : Option String
  eventId : Option String
  backgroundImage : Option (Option String)
  qrSize : Option Nat
  qrPosition : Option String
  textOverlays : Option String
  customFields : Option String
  createdAt : Option Nat
  updatedAt : Option Nat
  deriving DecidableEq, Repr

structure FormSchemaUpdate where
  id : Option String
  eventId : Option String
  schema : Option String
  layout : Option String
  responsiveSettings : Option String
  createdAt : Option Nat
  updatedAt : Option Nat
  deriving DecidableEq, Repr

/-- Semantics of the drizzle set-clause spread (update fields then a
fresh `updatedAt`) applied to one row:
supplied fields replace the old values and `updatedAt` is always set to
the present instant (overriding even a supplied value). -/
def applyUserUpdate (u : User) (p : UserUpdate) (now : Nat) : User :=
  { id := p.id.getD u.id, username := p.username.getD u.username,
    email := p.email.getD u.email, password := p.password.getD u.password,
    role := p.role.getD u.role, banned := p.banned.getD u.banned,
    createdAt := p.createdAt.getD u.createdAt, updatedAt := now }

def applyEventUpdate (e : Event) (p : EventUpdate) (now : Nat) : Event :=
  { id := p.id.getD e.id, userId := p.userId.getD e.userId,
    name := p.name.getD e.name, description := p.description.getD e.description,
    eventDate := p.eventDate.getD e.eventDate,
    eventTime := p.eventTime.getD e.eventTime,
    qrCodeUrl := p.qrCodeUrl.getD e.qrCodeUrl,
    registrationUrl := p.registrationUrl.getD e.registrationUrl,
    isActive := p.isActive.getD e.isActive,
    createdAt := p.createdAt.getD e.createdAt, updatedAt := now }

/-- Note `updateRegistration` is the one update that calls
`.set(registrationUpdate)` with no timestamp: only supplied fields
change (the `registrations` table has no `updatedAt` column at all). -/
def applyRegistrationUpdate (r : Registration) (p : RegistrationUpdate) :
    Registration :=
  { id := p.id.getD r.id, eventId := p.eventId.getD r.eventId,
    name := p.name.getD r.name, phone := p.phone.getD r.phone,
    position := p.position.getD r.position, email := p.email.getD r.email,
    customData := p.customData.getD r.customData,
    registeredAt := p.registeredAt.getD r.registeredAt }

def applyQrSettingsUpdate (q : QrSettings) (p : QrSettingsUpdate) (now : Nat) :
    QrSettings :=
  { id := p.id.getD q.id, eventId := p.eventId.getD q.eventId,
    backgroundImage := p.backgroundImage.getD q.backgroundImage,
    qrSize := p.qrSize.getD q.qrSize, qrPosition := p.qrPosition.getD q.qrPosition,
    textOverlays := p.textOverlays.getD q.textOverlays,
    customFields := p.customFields.getD q.customFields,
    createdAt := p.createdAt.getD q.createdAt, updatedAt := now }

def applyFormSchemaUpdate (f : FormSchema) (p : FormSchemaUpdate) (now : Nat) :
    FormSchema :=
  { id := p.id.getD f.id, eventId := p.eventId.getD f.eventId,
    schema := p.schema.getD f.schema, layout := p.layout.getD f.layout,
    responsiveSettings := p.responsiveSettings.getD f.responsiveSettings,
    createdAt := p.createdAt.getD f.createdAt, updatedAt := now }

/-- Model of `updateUser`: `UPDATE ... WHERE id = ? RETURNING *`; the returned
record, or a not-found indicator when no row matched. -/
def updateUser (store : List User) (id : String) (p : UserUpdate) (now : Nat) :
    Option User × List User :=
  match store.find? (fun u => u.id == id) with
  | none => (none, store)
  | some u =>
    (some (applyUserUpdate u p now),
     store.map (fun v => if v.id == id then applyUserUpdate v p now else v))

def updateEvent (store : List Event) (id : String) (p : EventUpdate) (now : Nat) :
    Option Event × List Event :=
  match store.find? (fun e => e.id == id) with
  | none => (none, store)
  | some e =>
    (some (applyEventUpdate e p now),
     store.map (fun v => if v.id == id then applyEventUpdate v p now else v))

def updateQrSettings (store : List QrSettings) (id : String)
    (p : QrSettingsUpdate) (now : Nat) : Option QrSettings × List QrSettings :=
  match store.find? (fun q => q.id == id) with
  | none => (none, store)
  | some q =>
    (some (applyQrSettingsUpdate q p now),
     store.map (fun v => if v.id == id then applyQrSettingsUpdate v p now else v))

def updateFormSchema (store : List FormSchema) (id : String)
    (p : FormSchemaUpdate) (now : Nat) : Option FormSchema × List FormSchema :=
  match store.find? (fun f => f.id == id) with
  | none => (none, store)
  | some f =>
    (some (applyFormSchemaUpdate f p now),
     store.map (fun v => if v.id == id then applyFormSchemaUpdate v p now else v))

def updateRegistration (store : List Registration) (id : String)
    (p : RegistrationUpdate) : Option Registration × List Registration :=
  match store.find? (fun r => r.id == id) with
  | none => (none, store)
  | some r =>
    (some (applyRegistrationUpdate r p),
     store.map (fun v => if v.id == id then applyRegistrationUpdate v p else v))

/-- A concrete registration row and a partial update supplying only
`name`. -/
def regW : Registration :=
  { id := "r1", eventId := "e1", name := "n", phone := "p",
    position := none, email := none, customData := "\x7b\x7d",
    registeredAt := 1 }

def regUpdW : RegistrationUpdate :=
  { id := none, eventId := none, name := some "m", phone := none,
    position := none, email := none, customData := none,
    registeredAt := none }

/-- C6 counterexample: `updateRegistration` succeeds but refreshes no
timestamp — the `registrations` table has no `updatedAt` column and the
code calls `.set(registrationUpdate)` bare, so the only timestamp field
(`registeredAt`) keeps its old value. -/
theorem updateRegistration_no_timestamp_cx :
    updateRegistration [regW] "r1" regUpdW =
      (some { regW with name := "m" }, [{ regW with name := "m" }]) ∧
    ({ regW with name := "m" } : Registration).registeredAt =
      regW.registeredAt := by
  decide

/-- C6 amended: `updateUser`, `updateEvent`, `updateQrSettings` and
`updateFormSchema` mutate only supplied fields, always set `updatedAt`
to the present instant, and report not-found on a missing id;
`updateRegistration` likewise mutates only supplied fields and reports
not-found, but refreshes no timestamp (the record has no `updatedAt`;
`registeredAt` only changes if explicitly supplied). -/
theorem update_supplied_fields_amended :
    (∀ (store : List User) id p now,
      (store.find? (fun u => u.id == id) = none →
        updateUser store id p now = (none, store)) ∧
      (∀ u, store.find? (fun u => u.id == id) = some u →
        (updateUser store id p now).fst = some
          { id := p.id.getD u.id, username := p.username.getD u.username,
            email := p.email.getD u.email,
            password := p.password.getD u.password,
            role := p.role.getD u.role, banned := p.banned.getD u.banned,
            createdAt := p.createdAt.getD u.createdAt, updatedAt := now })) ∧
    (∀ (store : List Event) id p now,
      (store.find? (fun e => e.id == id) = none →
        updateEvent store id p now = (none, store)) ∧
      (∀ e, store.find? (fun e => e.id == id) = some e →
        (updateEvent store id p now).fst = some
          { id := p.id.getD e.id, userId := p.userId.getD e.userId,
            name := p.name.getD e.name,
            description := p.description.getD e.description,
            eventDate := p.eventDate.getD e.eventDate,
            eventTime := p.eventTime.getD e.eventTime,
            qrCodeUrl := p.qrCodeUrl.getD e.qrCodeUrl,
            registrationUrl := p.registrationUrl.getD e.registrationUrl,
            isActive := p.isActive.getD e.isActive,
            createdAt := p.createdAt.getD e.createdAt, updatedAt := now })) ∧
    (∀ (store : List QrSettings) id p now,
      (store.find? (fun q => q.id == id) = none →
        updateQrSettings store id p now = (none, store)) ∧
      (∀ q, store.find? (fun q => q.id == id) = some q →
        (updateQrSettings store id p now).fst = some
          { id := p.id.getD q.id, eventId := p.eventId.getD q.eventId,
            backgroundImage := p.backgroundImage.getD q.backgroundImage,
            qrSize := p.qrSize.getD q.qrSize,
            qrPosition := p.qrPosition.getD q.qrPosition,
            textOverlays := p.textOverlays.getD q.textOverlays,
            customFields := p.customFields.getD q.customFields,
            createdAt := p.createdAt.getD q.createdAt, updatedAt := now })) ∧
    (∀ (store : List FormSchema) id p now,
      (store.find? (fun f => f.id == id) = none →
        updateFormSchema store id p now = (none, store)) ∧
      (∀ f, store.find? (fun f => f.id == id) = some f →
        (updateFormSchema store id p now).fst = some
          { id := p.id.getD f.id, eventId := p.eventId.getD f.eventId,
            schema := p.schema.getD f.schema, layout := p.layout.getD f.layout,
            responsiveSettings :=
              p.responsiveSettings.getD f.responsiveSettings,
            createdAt := p.createdAt.getD f.createdAt, updatedAt := now })) ∧
    (∀ (store : List Registration) id p,
      (store.find? (fun r => r.id == id) = none →
        updateRegistration store id p = (none, store)) ∧
      (∀ r, store.find? (fun r => r.id == id) = some r →
        (updateRegistration store id p).fst = some
          { id := p.id.getD r.id, eventId := p.eventId.getD r.eventId,
            name := p.name.getD r.name, phone := p.phone.getD r.phone,
            position := p.position.getD r.position,
            email := p.email.getD r.email,
            customData := p.customData.getD r.customData,
            registeredAt := p.registeredAt.getD r.registeredAt })) := by
  refine ⟨fun store id p now => ⟨fun h => ?_, fun u hu => ?_⟩,
    fun store id p now => ⟨fun h => ?_, fun e he => ?_⟩,
    fun store id p now => ⟨fun h => ?_, fun q hq => ?_⟩,
    fun store id p now => ⟨fun h => ?_, fun f hf => ?_⟩,
    fun store id p => ⟨fun h => ?_, fun r hr => ?_⟩⟩
  · simp [updateUser, h]
  · simp [updateUser, hu, applyUserUpdate]
  · simp [updateEvent, h]
  · simp [updateEvent, he, applyEventUpdate]
  · simp [updateQrSettings, h]
  · simp [updateQrSettings, hq, applyQrSettingsUpdate]
  · simp [updateFormSchema, h]
  · simp [updateFormSchema, hf, applyFormSchemaUpdate]
  · simp [updateRegistration, h]
  · simp [updateRegistration, hr, applyRegistrationUpdate]

/-- Concrete rows and partial updates for the other entities. -/
def userUpdW : UserUpdate :=
  { id := none, username := none, email := some "new@x.com",
    password := none, role := none, banned := none, createdAt := none,
    updatedAt := none }

def eventW : Event :=
  { id := "e1", userId := "u1", name := "Spring Fair", description := none,
    eventDate := none, eventTime := none, qrCodeUrl := none,
    registrationUrl := some "/register/u1", isActive := true,
    createdAt := 1, updatedAt := 1 }

def eventUpdW : EventUpdate :=
  { id := none, userId := none, name := some "Autumn Fair",
    description := none, eventDate := none, eventTime := none,
    qrCodeUrl := none, registrationUrl := none, isActive := none,
    createdAt := none, updatedAt := none }

def qrW : QrSettings :=
  { id := "q1", eventId := "e1", backgroundImage := none, qrSize := 200,
    qrPosition := "\x7b\x7d", textOverlays := "[]",
    customFields := "\x7b\x7d", createdAt := 1, updatedAt := 1 }

def qrUpdW : QrSettingsUpdate :=
  { id := none, eventId := none, backgroundImage := none,
    qrSize := some 300, qrPosition := none, textOverlays := none,
    customFields := none, createdAt := none, updatedAt := none }

def fsW : FormSchema :=
  { id := "f1", eventId := "e1", schema := "[]", layout := "\x7b\x7d",
    responsiveSettings := "\x7b\x7d", createdAt := 1, updatedAt := 1 }

def fsUpdW : FormSchemaUpdate :=
  { id := none, eventId := none, schema := none, layout := some "grid",
    responsiveSettings := none, createdAt := none, updatedAt := none }

/-- Witness for the amended C6 on concrete rows: one not-found case and
one found case per entity. -/
theorem update_supplied_fields_amended_witness :
    updateUser ([] : List User) "x" userUpdW 9 = (none, []) ∧
    (updateUser [adminW] adminW.id userUpdW 9).fst = some
      { id := userUpdW.id.getD adminW.id,
        username := userUpdW.username.getD adminW.username,
        email := userUpdW.email.getD adminW.email,
        password := userUpdW.password.getD adminW.password,
        role := userUpdW.role.getD adminW.role,
        banned := userUpdW.banned.getD adminW.banned,
        createdAt := userUpdW.createdAt.getD adminW.createdAt,
        updatedAt := 9 } ∧
    (updateEvent [eventW] eventW.id eventUpdW 9).fst = some
      { id := eventUpdW.id.getD eventW.id,
        userId := eventUpdW.userId.getD eventW.userId,
        name := eventUpdW.name.getD eventW.name,
        description := eventUpdW.description.getD eventW.description,
        eventDate := eventUpdW.eventDate.getD eventW.eventDate,
        eventTime := eventUpdW.eventTime.getD eventW.eventTime,
        qrCodeUrl := eventUpdW.qrCodeUrl.getD eventW.qrCodeUrl,
        registrationUrl := eventUpdW.registrationUrl.getD eventW.registrationUrl,
        isActive := eventUpdW.isActive.getD eventW.isActive,
        createdAt := eventUpdW.createdAt.getD eventW.createdAt,
        updatedAt := 9 } ∧
    (updateQrSettings [qrW] qrW.id qrUpdW 9).fst = some
      { id := qrUpdW.id.getD qrW.id,
        eventId := qrUpdW.eventId.getD qrW.eventId,
        backgroundImage := qrUpdW.backgroundImage.getD qrW.backgroundImage,
        qrSize := qrUpdW.qrSize.getD qrW.qrSize,
        qrPosition := qrUpdW.qrPosition.getD qrW.qrPosition,
        textOverlays := qrUpdW.textOverlays.getD qrW.textOverlays,
        customFields := qrUpdW.customFields.getD qrW.customFields,
        createdAt := qrUpdW.createdAt.getD qrW.createdAt,
        updatedAt := 9 } ∧
    (updateFormSchema [fsW] fsW.id fsUpdW 9).fst = some
      { id := fsUpdW.id.getD fsW.id,
        eventId := fsUpdW.eventId.getD fsW.eventId,
        schema := fsUpdW.schema.getD fsW.schema,
        layout := fsUpdW.layout.getD fsW.layout,
        responsiveSettings := fsUpdW.responsiveSettings.getD fsW.responsiveSettings,
        createdAt := fsUpdW.createdAt.getD fsW.createdAt,
        updatedAt := 9 } ∧
    (updateRegistration [regW] regW.id regUpdW).fst = some
      { id := regUpdW.id.getD regW.id,
        eventId := regUpdW.eventId.getD regW.eventId,
        name := regUpdW.name.getD regW.name,
        phone := regUpdW.phone.getD regW.phone,
        position := regUpdW.position.getD regW.position,
        email := regUpdW.email.getD regW.email,
        customData := regUpdW.customData.getD regW.customData,
        registeredAt := regUpdW.registeredAt.getD regW.registeredAt } :=
  ⟨(update_supplied_fields_amended.1 [] "x" userUpdW 9).1 rfl,
   (update_supplied_fields_amended.1 [adminW] adminW.id userUpdW 9).2 adminW
      (by decide),
   (update_supplied_fields_amended.2.1 [eventW] eventW.id eventUpdW 9).2 eventW
      (by decide),
   (update_supplied_fields_amended.2.2.1 [qrW] qrW.id qrUpdW 9).2 qrW
      (by decide),
   (update_supplied_fields_amended.2.2.2.1 [fsW] fsW.id fsUpdW 9).2 fsW
      (by decide),
   (update_supplied_fields_amended.2.2.2.2 [regW] regW.id regUpdW).2 regW
      (by decide)⟩

/-! ## Event creation (`POST /api/events` and `createEvent`) -/

/-- An event-creation request body: the client is free to also send the
computed / server-owned fields. -/
structure RawEventBody where
  id : Option String
  userId : String
  name : String
  description : Option String
  eventDate : Option String
  eventTime : Option String
  qrCodeUrl : Option String
  registrationUrl : Option String
  isActive : Option Bool
  createdAt : Option Nat
  updatedAt : Option Nat
  deriving DecidableEq, Repr

/-- Schema `insertEventSchema` omits `id`, `qrCodeUrl`, `registrationUrl` and
the timestamps. -/
structure InsertEvent where
  userId : String
  name : String
  description : Option String
  eventDate : Option String
  eventTime : Option String
  isActive : Option Bool
  deriving DecidableEq, Repr

/-- Model of `insertEventSchema.parse`: zod strips every omitted key. -/
def insertEventSchemaParse (body : RawEventBody) : InsertEvent :=
  { userId := body.userId, name := body.name, description := body.description,
    eventDate := body.eventDate, eventTime := body.eventTime,
    isActive := body.isActive }

/-- Model of `createEvent`: spreads the insert data and overwrites
`registrationUrl` with the string derived from the owning user id and
`qrCodeUrl` with null; the database fills the id, the `isActive` default
and the timestamps. -/
def createEvent (store : List Event) (ins : InsertEvent) (newId : String)
    (now : Nat) : Event × List Event :=
  let e : Event :=
    { id := newId, userId := ins.userId, name := ins.name,
      description := ins.description, eventDate := ins.eventDate,
      eventTime := ins.eventTime, qrCodeUrl := none,
      registrationUrl := some ("/register/" ++ ins.userId),
      isActive := ins.isActive.getD true, createdAt := now, updatedAt := now }
  (e, store ++ [e])

/-- Handler for `POST /api/events` success path: parse then `createEvent`. -/
def createEventApi (body : RawEventBody) (store : List Event)
    (newId : String) (now : Nat) : Event × List Event :=
  createEvent store (insertEventSchemaParse body) newId now

/-- C8: the stored `registrationUrl` is computed from the owning user id
alone; caller-supplied `registrationUrl` / `qrCodeUrl` values do not
affect the operation at all, and `qrCodeUrl` is stored null. -/
theorem createEvent_registrationUrl_derived (body : RawEventBody)
    (store : List Event) (newId : String) (now : Nat) (r q : Option String) :
    createEventApi { body with registrationUrl := r, qrCodeUrl := q }
        store newId now = createEventApi body store newId now ∧
    (createEventApi body store newId now).fst.registrationUrl =
      some ("/register/" ++ body.userId) ∧
    (createEventApi body store newId now).fst.qrCodeUrl = none :=
  ⟨rfl, rfl, rfl⟩

/-! ## Sanitized user responses -/

/-- Model of `getAllUsers`: orders rows by `createdAt` descending (insertion into
a descending-sorted list). -/
def insertByCreatedAtDesc (u : User) : List User → List User
  | [] => [u]
  | v :: vs =>
    if v.createdAt < u.createdAt then u :: v :: vs
    else v :: insertByCreatedAtDesc u vs

def getAllUsers (store : List User) : List User :=
  store.foldr insertByCreatedAtDesc []

/-- Handler for `GET /api/users` (behind `requireAdmin`): maps each user to the
six-field object written inline in the route. -/
def getAllUsersHandler (store : List User) :
    Nat × List (List (String × JVal)) :=
  (200, (getAllUsers store).map (fun user =>
    [("id", JVal.s user.id), ("username", JVal.s user.username),
     ("email", JVal.s user.email), ("role", JVal.s user.role),
     ("banned", JVal.b user.banned), ("createdAt", JVal.n user.createdAt)]))

/-- Handler for `GET /api/user`: 401 unless authenticated, else the six-field
object. -/
def getUserHandler (req : AuthedRequest) : Nat × Option (List (String × JVal)) :=
  match req.user with
  | none => (401, none)
  | some u => (200, some (sanitizeUser u))

def sanitizedUserKeys : List String :=
  ["id", "username", "email", "role", "banned", "createdAt"]

/-- C9: every user object serialized by register, login,
`GET /api/user` and `GET /api/users` carries exactly the keys
`{id, username, email, role, banned, createdAt}` and never a
`password` key. -/
theorem sanitized_user_view_fields (u : User) (store : List User)
    (kdf : List Char → List Char → List Nat) (username : String)
    (password : List Char) :
    (sanitizeUser u).map Prod.fst = sanitizedUserKeys ∧
    "password" ∉ (sanitizeUser u).map Prod.fst ∧
    registerResponse (RegisterOutcome.created u) = (201, some (sanitizeUser u)) ∧
    (∀ body, loginHandler kdf store username password =
        LoginResponse.ok 200 body →
      body.map Prod.fst = sanitizedUserKeys ∧
      "password" ∉ body.map Prod.fst) ∧
    getUserHandler { user := some u } = (200, some (sanitizeUser u)) ∧
    (∀ js ∈ (getAllUsersHandler store).snd,
      js.map Prod.fst = sanitizedUserKeys ∧
      "password" ∉ js.map Prod.fst) := by
  have hkeys : ∀ v : User, (sanitizeUser v).map Prod.fst = sanitizedUserKeys :=
    fun v => by simp [sanitizeUser, sanitizedUserKeys]
  have hnp : ("password" : String) ∉ sanitizedUserKeys := by decide
  refine ⟨hkeys u, ?_, rfl, fun body hb => ?_, rfl, fun js hjs => ?_⟩
  · rw [hkeys u]; exact hnp
  · unfold loginHandler at hb
    split at hb
    · exact absurd hb (by simp)
    · exact absurd hb (by simp)
    · rename_i v hv
      have hbody : body = sanitizeUser v := by
        simp only [LoginResponse.ok.injEq] at hb
        exact hb.2.symm
      subst hbody
      exact ⟨hkeys v, by rw [hkeys v]; exact hnp⟩
  · simp only [getAllUsersHandler, List.mem_map] at hjs
    obtain ⟨v, hv, hjs⟩ := hjs
    subst hjs
    have : (sanitizeUser v).map Prod.fst = sanitizedUserKeys := hkeys v
    simp only [sanitizeUser] at this
    exact ⟨this, by rw [this]; exact hnp⟩

/-- Witness for C9: a concrete successful login and concrete users. -/
theorem sanitized_user_view_fields_witness :
    (sanitizeUser adminW).map Prod.fst = sanitizedUserKeys ∧
    "password" ∉ (sanitizeUser adminW).map Prod.fst ∧
    (sanitizeUser aliceW).map Prod.fst = sanitizedUserKeys ∧
    "password" ∉ (sanitizeUser aliceW).map Prod.fst :=
  ⟨(sanitized_user_view_fields adminW [] kdf0 "x" []).1,
   (sanitized_user_view_fields adminW [] kdf0 "x" []).2.1,
   ((sanitized_user_view_fields adminW [aliceW] kdf1 "alice" pwW).2.2.2.1
      (sanitizeUser aliceW) (by decide)).1,
   ((sanitized_user_view_fields adminW [aliceW] kdf1 "alice" pwW).2.2.2.1
      (sanitizeUser aliceW) (by decide)).2⟩

/-! ## Events routes: no authentication gate -/

def getEvent (store : List Event) (id : String) : Option Event :=
  store.find? (fun e => e.id == id)

def deleteEvent (store : List Event) (id : String) : Bool × List Event :=
  (store.any (fun e => e.id == id), store.filter (fun e => !(e.id == id)))

def insertEventByCreatedAtDesc (e : Event) : List Event → List Event
  | [] => [e]
  | v :: vs =>
    if v.createdAt < e.createdAt then e :: v :: vs
    else v :: insertEventByCreatedAtDesc e vs

def getAllEvents (store : List Event) : List Event :=
  store.foldr insertEventByCreatedAtDesc []

/-- Schema `insertEventSchema.partial()`: the same six keys, each optional. -/
structure PatchEventBody where
  userId : Option String
  name : Option String
  description : Option (Option String)
  eventDate : Option (Option String)
  eventTime : Option (Option String)
  isActive : Option Bool
  deriving DecidableEq, Repr

def patchEventBodyToUpdate (p : PatchEventBody) : EventUpdate :=
  { id := none, userId := p.userId, name := p.name,
    description := p.description, eventDate := p.eventDate,
    eventTime := p.eventTime, qrCodeUrl := none, registrationUrl := none,
    isActive := p.isActive, createdAt := none, updatedAt := none }

/-- Handler for `GET /api/events`: no middleware; the session is never consulted. -/
def getEventsRoute (session : Option User) (store : List Event) :
    Nat × List Event :=
  (200, getAllEvents store)

/-- Handler for `GET /api/events/:id` -/
def getEventRoute (session : Option User) (store : List Event) (id : String) :
    Nat × Option Event :=
  match getEvent store id with
  | none => (404, none)
  | some e => (200, some e)

/-- Handler for `POST /api/events`; a `none` body is a zod parse failure (400). -/
def createEventRoute (session : Option User) (store : List Event)
    (body : Option RawEventBody) (newId : String) (now : Nat) :
    Nat × List Event :=
  match body with
  | none => (400, store)
  | some b => (201, (createEventApi b store newId now).snd)

/-- Handler for `PATCH /api/events/:id` -/
def updateEventRoute (session : Option User) (store : List Event)
    (id : String) (body : Option PatchEventBody) (now : Nat) :
    Nat × List Event :=
  match body with
  | none => (400, store)
  | some p =>
    match updateEvent store id (patchEventBodyToUpdate p) now with
    | (none, store2) => (404, store2)
    | (some _, store2) => (200, store2)

/-- Handler for `DELETE /api/events/:id` -/
def deleteEventRoute (session : Option User) (store : List Event)
    (id : String) : Nat × List Event :=
  match deleteEvent store id with
  | (true, store2) => (204, store2)
  | (false, store2) => (404, store2)

/-- C10: all five events routes ignore the session entirely — the result
is identical for any two session states (including none) — and each
route only ever answers 200/201/204/400/404, never 401 or 403; in
particular an anonymous caller creates, modifies and deletes events. -/
theorem events_routes_no_auth (s1 s2 : Option User) (store : List Event)
    (id newId : String) (obody : Option RawEventBody)
    (opbody : Option PatchEventBody) (body : RawEventBody) (now : Nat) :
    getEventsRoute s1 store = getEventsRoute s2 store ∧
    (getEventsRoute s1 store).fst = 200 ∧
    getEventRoute s1 store id = getEventRoute s2 store id ∧
    ((getEventRoute s1 store id).fst = 200 ∨
      (getEventRoute s1 store id).fst = 404) ∧
    createEventRoute s1 store obody newId now =
      createEventRoute s2 store obody newId now ∧
    ((createEventRoute s1 store obody newId now).fst = 201 ∨
      (createEventRoute s1 store obody newId now).fst = 400) ∧
    createEventRoute none store (some body) newId now =
      (201, (createEventApi body store newId now).snd) ∧
    updateEventRoute s1 store id opbody now =
      updateEventRoute s2 store id opbody now ∧
    ((updateEventRoute s1 store id opbody now).fst = 200 ∨
      (updateEventRoute s1 store id opbody now).fst = 404 ∨
      (updateEventRoute s1 store id opbody now).fst = 400) ∧
    deleteEventRoute s1 store id = deleteEventRoute s2 store id ∧
    ((deleteEventRoute s1 store id).fst = 204 ∨
      (deleteEventRoute s1 store id).fst = 404) ∧
    deleteEventRoute none store id =
      (if (deleteEvent store id).fst then 204 else 404,
        (deleteEvent store id).snd) := by
  refine ⟨rfl, rfl, rfl, ?_, rfl, ?_, rfl, rfl, ?_, rfl, ?_, ?_⟩
  · unfold getEventRoute
    cases getEvent store id <;> simp
  · unfold createEventRoute
    cases obody <;> simp
  · unfold updateEventRoute
    cases opbody with
    | none => simp
    | some p =>
      cases h : updateEvent store id (patchEventBodyToUpdate p) now with
      | mk o st => cases o <;> simp [h]
  · unfold deleteEventRoute
    cases h : deleteEvent store id with
    | mk b st => cases b <;> simp [h]
  · unfold deleteEventRoute
    cases h : deleteEvent store id with
    | mk b st => cases b <;> simp [h]

end QRForm
